import Mathlib

/-!
Verification of the Library Management API (`src/main.py`): a FastAPI + SQLite
CRUD service over a single `books` table.  The service state is modelled as the
table contents plus the AUTOINCREMENT counter; each HTTP handler becomes a pure
function from state and request to a response together with the new state.

The central fact of this development: `get_db` (main.py lines 20-26) contains
a `yield`, so calling it returns a generator object, and the
`from contextlib import contextmanager` import (line 5) is never applied to it
as a decorator.  A generator object does not implement the context-manager
protocol, so every `with get_db() as conn:` statement raises
`TypeError: 'generator' object does not support the context manager protocol`
before its body runs.  Consequently `init_db()` (called at module scope, line
42) aborts the import of the module, and each handler, were it ever invoked,
would raise the same TypeError before executing any SQL.  The SQL bodies of
the handlers are still translated below, as the code the with-statements would
run; the wrapper `withGetDb` records that they never do.
-/

/-- The pydantic request model `BookCreate` (`main.py` lines 10-14): the four
required body fields of create and update. -/
structure BookCreate where
  title : String
  author : String
  publication_year : Int
  isbn : String
deriving Repr, DecidableEq

/-- The response model `Book` (`main.py` lines 16-17): a `BookCreate` plus the
server-assigned `id`.  It is also one row of the `books` table. -/
structure Book where
  id : Nat
  title : String
  author : String
  publication_year : Int
  isbn : String
deriving Repr, DecidableEq

/-- The persistent state: the rows of the `books` table (in insertion order,
as SQLite scans them) together with the AUTOINCREMENT sequence value `nextId`.
The `library.db` file is external persistent state, so a table with arbitrary
contents (for instance one written by another tool) is a legitimate state even
though this program itself never writes a row. -/
structure DB where
  books : List Book
  nextId : Nat
deriving Repr, DecidableEq

/-- The error outcomes. `typeError` is the TypeError raised by entering
`with get_db() as conn` (an unhandled fault, HTTP 500). `notFound` is the 404
HTTPException, `conflict` the caught duplicate-isbn error mapped to HTTP 400,
and `integrityError` the raw sqlite3.IntegrityError - the latter three are
raised only inside the with-bodies, which never run. -/
inductive Err where
  | notFound
  | conflict
  | integrityError
  | typeError
deriving Repr, DecidableEq

/-- HTTP status code of each error outcome: 404 for the missing-id exception,
400 for the caught duplicate-isbn error, and 500 for an exception no handler
catches (sqlite3.IntegrityError or TypeError reaching the framework). -/
def statusOf : Err → Nat
  | Err.notFound => 404
  | Err.conflict => 400
  | Err.integrityError => 500
  | Err.typeError => 500

/-- Entering `with get_db() as conn:` (`main.py` lines 30, 47, 54, 64, 81,
99): `get_db` is a generator function lacking the `@contextmanager` decorator,
so the generator object returned by `get_db()` does not support the
context-manager protocol and the with-statement raises TypeError before its
body runs.  The body never executes, no SQL statement is ever issued, and the
state is left untouched. -/
def withGetDb {α : Type} (db : DB) (_body : DB → Except Err α × DB) :
    Except Err α × DB :=
  (Except.error Err.typeError, db)

/-- The body of get_book's with-statement (`main.py` lines 55-59):
`SELECT * FROM books WHERE id = ?`, 404 when no row matches, otherwise the
first matching row.  Unreachable: the enclosing with-statement faults first. -/
def get_book_body (conn : DB) (id : Nat) : Except Err Book × DB :=
  match conn.books.find? (fun b => b.id == id) with
  | none => (Except.error Err.notFound, conn)
  | some b => (Except.ok b, conn)

/-- The body of create_book's with-statement (`main.py` lines 65-75): INSERT
with RETURNING; the UNIQUE constraint on isbn raises IntegrityError when the
isbn is already stored, otherwise the row is appended under the next
AUTOINCREMENT id.  Unreachable: the enclosing with-statement faults first. -/
def create_book_body (conn : DB) (input : BookCreate) : Except Err Book × DB :=
  if conn.books.any (fun b => b.isbn == input.isbn) then
    (Except.error Err.integrityError, conn)
  else
    let b : Book :=
      ⟨conn.nextId, input.title, input.author, input.publication_year,
        input.isbn⟩
    (Except.ok b, ⟨conn.books ++ [b], conn.nextId + 1⟩)

/-- The body of update_book's with-statement (`main.py` lines 82-95):
UPDATE ... WHERE id = ? RETURNING *; 404 when no row matches, IntegrityError
when the new isbn equals another row's isbn, otherwise every field except id
is replaced.  Unreachable: the enclosing with-statement faults first. -/
def update_book_body (conn : DB) (id : Nat) (input : BookCreate) :
    Except Err Book × DB :=
  match conn.books.find? (fun b => b.id == id) with
  | none => (Except.error Err.notFound, conn)
  | some _ =>
    if conn.books.any (fun b => b.id != id && b.isbn == input.isbn) then
      (Except.error Err.integrityError, conn)
    else
      (Except.ok ⟨id, input.title, input.author, input.publication_year,
          input.isbn⟩,
       ⟨conn.books.map (fun b =>
          if b.id == id then
            ⟨b.id, input.title, input.author, input.publication_year,
              input.isbn⟩
          else b),
        conn.nextId⟩)

/-- The body of delete_book's with-statement (`main.py` lines 100-104):
DELETE ... WHERE id = ? RETURNING id; 404 when no row matched, otherwise a
confirmation message.  Unreachable: the enclosing with-statement faults
first. -/
def delete_book_body (conn : DB) (id : Nat) : Except Err String × DB :=
  if conn.books.any (fun b => b.id == id) then
    (Except.ok "Book deleted successfully",
     ⟨conn.books.filter (fun b => b.id != id), conn.nextId⟩)
  else
    (Except.error Err.notFound, conn)

/-- `get_book` (`main.py` lines 52-59): the handler enters
`with get_db() as conn:` and therefore raises TypeError on every call - an
unhandled 500 fault; neither the 404 branch nor a row is ever returned. -/
def get_book (db : DB) (id : Nat) : Except Err Book × DB :=
  withGetDb db (fun conn => get_book_body conn id)

/-- `create_book` (`main.py` lines 61-77): the try-block's with-statement
raises TypeError on every call; the `except sqlite3.IntegrityError` clause
(line 76) converts only IntegrityError into the 400 Conflict response, so the
TypeError escapes as an unhandled 500 fault and no row is ever inserted. -/
def create_book (db : DB) (input : BookCreate) : Except Err Book × DB :=
  match withGetDb db (fun conn => create_book_body conn input) with
  | (Except.error Err.integrityError, conn) => (Except.error Err.conflict, conn)
  | r => r

/-- `update_book` (`main.py` lines 79-95): the handler enters
`with get_db() as conn:` and therefore raises TypeError on every call - an
unhandled 500 fault; no row is ever updated. -/
def update_book (db : DB) (id : Nat) (input : BookCreate) :
    Except Err Book × DB :=
  withGetDb db (fun conn => update_book_body conn id input)

/-- `delete_book` (`main.py` lines 97-104): the handler enters
`with get_db() as conn:` and therefore raises TypeError on every call - an
unhandled 500 fault; no row is ever deleted and neither the confirmation
message nor the 404 branch is ever reached. -/
def delete_book (db : DB) (id : Nat) : Except Err String × DB :=
  withGetDb db (fun conn => delete_book_body conn id)

/-- `init_db` (`main.py` lines 29-40): it too enters `with get_db() as conn:`
and raises TypeError before `CREATE TABLE IF NOT EXISTS` runs.  Because
`init_db()` is called at module scope (line 42), this TypeError aborts
the module import: the application never finishes loading and never serves
a request. -/
def init_db (db : DB) : Except Err Unit × DB :=
  withGetDb db (fun conn => (Except.ok (), conn))

/-- One mutating API call, for reasoning about operation sequences. -/
inductive Op where
  | create : BookCreate → Op
  | update : Nat → BookCreate → Op
  | delete : Nat → Op

/-- State after one mutating call (whether it succeeded or failed). -/
def stepDB (db : DB) : Op → DB
  | Op.create input => (create_book db input).2
  | Op.update id input => (update_book db id input).2
  | Op.delete id => (delete_book db id).2

/-- State after a sequence of mutating calls. -/
def runDB (db : DB) (ops : List Op) : DB :=
  ops.foldl stepDB db

/-- The state of a fresh deployment: no `library.db` file exists, so the table
holds no rows and the first AUTOINCREMENT id would be 1.  (init_db never
creates the table - it faults first - so this program never populates it
either.) -/
def startDB : DB := ⟨[], 1⟩

/-- A hypothetical one-row table state (as the spec's Dune scenario intends;
reachable only through an external writer, never through this code). -/
def dbDune : DB := ⟨[⟨1, "Dune", "Herbert", 1965, "123"⟩], 2⟩

/-- A hypothetical two-row table state with distinct isbns. -/
def dbTwo : DB :=
  ⟨[⟨1, "Dune", "Herbert", 1965, "123"⟩,
    ⟨2, "Emma", "Austen", 1815, "456"⟩], 3⟩

theorem get_book_eq (db : DB) (id : Nat) :
    get_book db id = (Except.error Err.typeError, db) := rfl

theorem create_book_eq (db : DB) (input : BookCreate) :
    create_book db input = (Except.error Err.typeError, db) := rfl

theorem update_book_eq (db : DB) (id : Nat) (input : BookCreate) :
    update_book db id input = (Except.error Err.typeError, db) := rfl

theorem delete_book_eq (db : DB) (id : Nat) :
    delete_book db id = (Except.error Err.typeError, db) := rfl

theorem init_db_eq (db : DB) :
    init_db db = (Except.error Err.typeError, db) := rfl

theorem stepDB_eq (db : DB) (op : Op) : stepDB db op = db := by
  cases op <;> rfl

theorem runDB_id (db : DB) (ops : List Op) : runDB db ops = db := by
  induction ops generalizing db with
  | nil => rfl
  | cons op ops ih =>
    show runDB (stepDB db op) ops = db
    rw [stepDB_eq, ih]

/-- C1 (code bug): create never succeeds.  Every call to create_book raises
TypeError at `with get_db() as conn` - an unhandled 500 fault - before any
INSERT, so no record is ever created and no server-assigned id is ever
returned, contrary to the claimed create-then-get round trip. -/
theorem create_never_succeeds (db : DB) (input : BookCreate) :
    create_book db input = (Except.error Err.typeError, db) ∧
    statusOf Err.typeError = 500 :=
  ⟨create_book_eq db input, rfl⟩

/-- C2 (code bug): even when the input's isbn equals the isbn of a stored
record, create_book fails with the TypeError fault (HTTP 500), not with the
Conflict error (HTTP 400) its own except-clause intends: the exception is
raised before any SQL and `except sqlite3.IntegrityError` does not catch it.
The table is left unchanged. -/
theorem create_duplicate_isbn_faults (db : DB) (input : BookCreate) (b : Book)
    (hb : b ∈ db.books) (hisbn : b.isbn = input.isbn) :
    create_book db input = (Except.error Err.typeError, db) ∧
    Err.typeError ≠ Err.conflict ∧ statusOf Err.typeError = 500 :=
  ⟨create_book_eq db input, by decide, rfl⟩

theorem create_duplicate_isbn_faults_witness :
    create_book dbDune ⟨"Other", "Author", 2000, "123"⟩ =
      (Except.error Err.typeError, dbDune) ∧
    Err.typeError ≠ Err.conflict ∧ statusOf Err.typeError = 500 :=
  create_duplicate_isbn_faults dbDune ⟨"Other", "Author", 2000, "123"⟩
    ⟨1, "Dune", "Herbert", 1965, "123"⟩ (by simp [dbDune]) rfl

/-- C3: updating a stored record to an isbn held by a distinct stored record
fails - with the TypeError fault raised before any SQL, consistent with the
spec leaving the error kind of this case open - and leaves the table
completely unchanged, so no record is modified and isbn uniqueness is
preserved. -/
theorem update_isbn_collision_unchanged (db : DB) (id : Nat)
    (input : BookCreate) (b c : Book) (hb : b ∈ db.books) (hbid : b.id = id)
    (hc : c ∈ db.books) (hcid : c.id ≠ id) (hcisbn : c.isbn = input.isbn) :
    (update_book db id input).1 = Except.error Err.typeError ∧
    (update_book db id input).2 = db :=
  ⟨by rw [update_book_eq], by rw [update_book_eq]⟩

theorem update_isbn_collision_unchanged_witness :
    (update_book dbTwo 1 ⟨"Dune", "Herbert", 1965, "456"⟩).1 =
      Except.error Err.typeError ∧
    (update_book dbTwo 1 ⟨"Dune", "Herbert", 1965, "456"⟩).2 = dbTwo :=
  update_isbn_collision_unchanged dbTwo 1 ⟨"Dune", "Herbert", 1965, "456"⟩
    ⟨1, "Dune", "Herbert", 1965, "123"⟩ ⟨2, "Emma", "Austen", 1815, "456"⟩
    (by simp [dbTwo]) rfl (by simp [dbTwo]) (by decide) rfl

/-- C4 (code bug): update never succeeds.  Every call to update_book raises
TypeError at `with get_db() as conn` - an unhandled 500 fault - before any
UPDATE, so no record's fields are ever replaced and the claimed
update-then-get round trip never occurs. -/
theorem update_never_succeeds (db : DB) (id : Nat) (input : BookCreate) :
    update_book db id input = (Except.error Err.typeError, db) ∧
    statusOf Err.typeError = 500 :=
  ⟨update_book_eq db id input, rfl⟩

/-- C5 (code bug): delete never returns the confirmation message and never
returns NotFound either: every call to delete_book raises TypeError at
`with get_db() as conn` - an unhandled 500 fault - whether the id is present
or absent, and no row is ever removed. -/
theorem delete_never_succeeds (db : DB) (id : Nat) :
    delete_book db id = (Except.error Err.typeError, db) ∧
    Err.typeError ≠ Err.notFound ∧ statusOf Err.typeError = 500 :=
  ⟨delete_book_eq db id, by decide, rfl⟩

/-- C6 (code bug): get never returns NotFound for an absent id and never
returns a stored record for a present id: every call to get_book raises
TypeError at `with get_db() as conn` - an unhandled 500 fault - before the
SELECT. -/
theorem get_never_returns_record (db : DB) (id : Nat) :
    get_book db id = (Except.error Err.typeError, db) ∧
    Err.typeError ≠ Err.notFound ∧ statusOf Err.typeError = 500 :=
  ⟨get_book_eq db id, by decide, rfl⟩

/-- C7: create and update do reject every input whose title or author is
empty - they reject every input whatsoever, with the TypeError fault - and
from a fresh deployment no operation sequence ever stores a record, so every
record stored in the table (there are none) has a non-empty title and a
non-empty author.  The claim holds only in this degenerate way: no
non-emptiness check exists anywhere in the code. -/
theorem title_author_invariant :
    (∀ (db : DB) (input : BookCreate),
      input.title = "" ∨ input.author = "" →
      (create_book db input).1 = Except.error Err.typeError ∧
      ∀ id : Nat, (update_book db id input).1 = Except.error Err.typeError) ∧
    ∀ ops : List Op, (runDB startDB ops).books = [] := by
  constructor
  · intro db input _h
    exact ⟨by rw [create_book_eq], fun id => by rw [update_book_eq]⟩
  · intro ops
    rw [runDB_id]
    rfl

theorem title_author_invariant_witness :
    (create_book startDB ⟨"", "", 2000, "0000"⟩).1 =
      Except.error Err.typeError ∧
    (update_book startDB 1 ⟨"", "", 2000, "0000"⟩).1 =
      Except.error Err.typeError :=
  ⟨(title_author_invariant.1 startDB ⟨"", "", 2000, "0000"⟩ (Or.inl rfl)).1,
   (title_author_invariant.1 startDB ⟨"", "", 2000, "0000"⟩ (Or.inl rfl)).2 1⟩

/-- C8 (code bug): no request is ever rejected with a 422, because no request
is ever served: init_db, run at module scope, raises TypeError (an unhandled
500-class fault) before CREATE TABLE, so importing the module fails and the
application - including the pydantic validation boundary declared by
BookCreate - never starts. -/
theorem startup_faults (db : DB) :
    init_db db = (Except.error Err.typeError, db) ∧
    statusOf Err.typeError = 500 :=
  ⟨init_db_eq db, rfl⟩

/-- C9 (code bug): the claim's subject never occurs: no call to create_book
ever returns a successful response, so no server-assigned id is ever handed
out and there is no sequence of successful creates whose ids could increase
or be reused. -/
theorem create_never_assigns_ids (db : DB) (input : BookCreate) (b : Book)
    (db2 : DB) : create_book db input ≠ (Except.ok b, db2) := by
  simp [create_book_eq]

/-- C10: every operation leaves every record at every other id unchanged, in
the strongest (and degenerate) sense: each handler faults before touching the
table, so the state after create, update or delete is identical to the state
before, and get observes exactly the same outcome at every id before and
after (that outcome being the TypeError fault, never a record). -/
theorem crud_frame (db : DB) (oid : Nat) :
    (∀ input, (create_book db input).2 = db ∧
      get_book (create_book db input).2 oid = get_book db oid) ∧
    (∀ id input, (update_book db id input).2 = db ∧
      get_book (update_book db id input).2 oid = get_book db oid) ∧
    (∀ id, (delete_book db id).2 = db ∧
      get_book (delete_book db id).2 oid = get_book db oid) :=
  ⟨fun input => ⟨by rw [create_book_eq], by rw [create_book_eq]⟩,
   fun id input => ⟨by rw [update_book_eq], by rw [update_book_eq]⟩,
   fun id => ⟨by rw [delete_book_eq], by rw [delete_book_eq]⟩⟩
